import Mathlib

/-!
Verification of the revue PR-tracking reconciliation engine.

This file gives a shallow embedding of the Go sources (db/tracker.go,
db pull-request store, server/github_handler.go, server/slack_handler.go
and the Slack interaction handlers) and proves the testable properties
stated in the specification against that embedding.

Modelling conventions:
- SQL tables become Lean lists of rows; point updates become maps over
  those lists (an UPDATE ... WHERE id = ? touches every row whose id
  matches, exactly as the SQL does).
- Go int / int64 values are modelled as Int; the approval counters stay
  far from the int64 bounds on every reachable state, so wrap-around is
  not modelled (strconv.Atoi keeps its int64 range check, which is
  observable behaviour of the URL parser).
- External collaborators (GitHub REST API, Slack API) are oracles: pure
  inputs supplying the data the code would fetch, plus an effect list
  recording the messages the code would post.
- Go standard-library string and URL helpers used by the code are
  modelled below, faithfully to their documented semantics on the
  byte/character level used by this program.
-/

namespace Revue

/-! ## Go standard-library models -/

/-- Model of Go unicode.IsSpace (the White_Space property), used by
strings.TrimSpace in parsePRURL. -/
def goIsSpace (c : Char) : Bool :=
  c == ' ' || c == '\t' || c == '\n' || c == '\r' ||
  c == Char.ofNat 11 || c == Char.ofNat 12 ||
  c == Char.ofNat 0x85 || c == Char.ofNat 0xA0 ||
  c == Char.ofNat 0x1680 ||
  (0x2000 ≤ c.toNat && c.toNat ≤ 0x200A) ||
  c == Char.ofNat 0x2028 || c == Char.ofNat 0x2029 ||
  c == Char.ofNat 0x202F || c == Char.ofNat 0x205F || c == Char.ofNat 0x3000

/-- Model of Go strings.TrimSpace. -/
def goTrimSpace (s : String) : String :=
  ⟨((s.toList.dropWhile goIsSpace).reverse.dropWhile goIsSpace).reverse⟩

/-- Model of Go strings.Trim(s, "/"): drop leading and trailing slashes. -/
def goTrimSlashes (s : String) : String :=
  ⟨((s.toList.dropWhile (· == '/')).reverse.dropWhile (· == '/')).reverse⟩

/-- Splitting helper for goSplitSlash: Go strings.Split semantics for a
single-character separator (an empty input yields one empty field). -/
def splitSlashAux : List Char → List Char → List String
  | [], acc => [⟨acc.reverse⟩]
  | c :: rest, acc =>
    if c == '/' then ⟨acc.reverse⟩ :: splitSlashAux rest []
    else splitSlashAux rest (c :: acc)

/-- Model of Go strings.Split(s, "/"). -/
def goSplitSlash (s : String) : List String :=
  splitSlashAux s.toList []

/-- Decimal digit folding used by the Atoi model. -/
def digitsToNat (ds : List Char) : Nat :=
  ds.foldl (fun a c => a * 10 + (c.toNat - 48)) 0

/-- Model of Go strconv.Atoi: an optional single + or - sign followed by
at least one ASCII digit, rejected when the value falls outside the
64-bit int range. -/
def atoi (s : String) : Option Int :=
  match s.toList with
  | [] => none
  | c :: rest =>
    let (neg, digits) :=
      if c == '-' then (true, rest)
      else if c == '+' then (false, rest)
      else (false, c :: rest)
    if digits.isEmpty then none
    else if digits.all Char.isDigit then
      let v : Int := if neg then -(digitsToNat digits : Int) else (digitsToNat digits : Int)
      if v < -(2 ^ 63) || v > 2 ^ 63 - 1 then none else some v
    else none

/-! ### Model of net/url.Parse

Only the fields the program reads (Scheme, Host, Path) are modelled.
IPv6 host literals keep their bracketed text, Opaque URLs are returned
with empty Host and Path (the caller only compares Host and splits
Path), and percent-decoded bytes become the character of the same code
point. -/

/-- Result of the net/url.Parse model: the three fields parsePRURL can
observe. -/
structure GoURL where
  scheme : String
  host : String
  path : String
  deriving Repr, DecidableEq

/-- ASCII control bytes make net/url.Parse fail. -/
def isCTL (c : Char) : Bool :=
  c.toNat < 0x20 || c.toNat == 0x7F

/-- Hex digit value for percent-escape decoding. -/
def hexVal (c : Char) : Option Nat :=
  if c.isDigit then some (c.toNat - 48)
  else if 'a' ≤ c && c ≤ 'f' then some (c.toNat - 87)
  else if 'A' ≤ c && c ≤ 'F' then some (c.toNat - 55)
  else none

/-- Percent-escape decoding as in net/url unescape: a malformed escape
is an error, everything else is kept (mode-specific re-escaping checks
are handled by the host variant below). -/
def unescapeBytes : List Char → Option (List Char)
  | [] => some []
  | '%' :: a :: b :: rest =>
    match hexVal a, hexVal b with
    | some ha, some hb =>
      (unescapeBytes rest).map (fun tail => Char.ofNat (ha * 16 + hb) :: tail)
    | _, _ => none
  | '%' :: _ => none
  | c :: rest => (unescapeBytes rest).map (fun tail => c :: tail)

/-- Characters that may appear unescaped in a host component
(unreserved, sub-delimiters and the extra characters Go permits). -/
def hostSafeChar (c : Char) : Bool :=
  c.isAlphanum ||
  "-_.~!$&()*+,;=:[]<>".toList.contains c ||
  c == Char.ofNat 34 || c == Char.ofNat 39

/-- Host percent-escape decoding: Go additionally rejects an escape of
an ASCII byte that did not need escaping in a host. -/
def unescapeHost : List Char → Option (List Char)
  | [] => some []
  | '%' :: a :: b :: rest =>
    match hexVal a, hexVal b with
    | some ha, some hb =>
      let v := ha * 16 + hb
      if v < 0x80 && !(hostSafeChar (Char.ofNat v)) then none
      else (unescapeHost rest).map (fun tail => Char.ofNat v :: tail)
    | _, _ => none
  | '%' :: _ => none
  | c :: rest => (unescapeHost rest).map (fun tail => c :: tail)

/-- Model of Go net/url getScheme scanning: some (scheme, rest) when the
input has a valid scheme prefix, some ([], input) when it has none, and
none for the missing-protocol-scheme error. -/
def schemeLoop (orig : List Char) : List Char → List Char → Option (List Char × List Char)
  | [], _ => some ([], orig)
  | c :: rest, acc =>
    if c == ':' then some (acc.reverse, rest)
    else if c.isAlpha || c.isDigit || c == '+' || c == '-' || c == '.' then
      schemeLoop orig rest (c :: acc)
    else some ([], orig)

/-- Entry point of the getScheme model. -/
def getScheme (cs : List Char) : Option (List Char × List Char) :=
  match cs with
  | [] => some ([], [])
  | c :: rest =>
    if c == ':' then none
    else if c.isAlpha then schemeLoop cs rest [c]
    else some ([], cs)

/-- Userinfo characters Go accepts in an authority component. -/
def validUserinfoChar (c : Char) : Bool :=
  c.isAlphanum ||
  "-._:~!$&()*+,;=%@".toList.contains c ||
  c == Char.ofNat 39

/-- Characters after the last occurrence of sep (the whole list when
sep does not occur). -/
def afterLastSep (sep : Char) (cs : List Char) : List Char :=
  (cs.reverse.takeWhile (fun c => !(c == sep))).reverse

/-- Characters before the last occurrence of sep. -/
def beforeLastSep (sep : Char) (cs : List Char) : List Char :=
  ((cs.reverse.dropWhile (fun c => !(c == sep))).drop 1).reverse

/-- Model of Go validOptionalPort: empty, or a colon followed by zero or
more ASCII digits. -/
def validOptionalPort (cs : List Char) : Bool :=
  match cs with
  | [] => true
  | c :: rest => c == ':' && rest.all Char.isDigit

/-- Model of Go net/url parseHost: validate the optional port, then
percent-decode; the port stays part of the Host field. -/
def parseHost (host : List Char) : Option (List Char) :=
  if host.head? == some '[' then
    if host.contains ']' then
      if validOptionalPort (afterLastSep ']' host) then unescapeHost host else none
    else none
  else
    if host.contains ':' then
      if (afterLastSep ':' host).all Char.isDigit then unescapeHost host else none
    else unescapeHost host

/-- Model of Go net/url parseAuthority: strip the userinfo at the last
at-sign (validating it), then parse the host. -/
def parseAuthority (authority : List Char) : Option (List Char) :=
  if authority.contains '@' then
    let userinfo := beforeLastSep '@' authority
    if userinfo.all validUserinfoChar && (unescapeBytes userinfo).isSome then
      parseHost (afterLastSep '@' authority)
    else none
  else parseHost authority

/-- Authority applies when the rest starts with a double slash, unless a
scheme-less URL starts with a triple slash. -/
def hasAuthority (scheme rest : List Char) : Bool :=
  match rest with
  | '/' :: '/' :: tail =>
    !scheme.isEmpty || !(tail.head? == some '/')
  | _ => false

/-- Model of Go net/url.Parse restricted to the Scheme/Host/Path fields
the program reads: control-character rejection, fragment and query
stripping, scheme detection, authority/host parsing with port and
userinfo validation, and percent-decoding of the path. -/
def urlParse (raw : String) : Option GoURL :=
  let cs := raw.toList
  if cs.any isCTL then none
  else
    let beforeFrag := cs.takeWhile (fun c => !(c == '#'))
    let frag := (cs.dropWhile (fun c => !(c == '#'))).drop 1
    if (unescapeBytes frag).isNone then none
    else
      match getScheme beforeFrag with
      | none => none
      | some (scheme, rest0) =>
        let rest := rest0.takeWhile (fun c => !(c == '?'))
        if !(rest.head? == some '/') then
          if !scheme.isEmpty then
            some { scheme := ⟨scheme.map Char.toLower⟩, host := "", path := "" }
          else if (rest.takeWhile (fun c => !(c == '/'))).contains ':' then none
          else
            match unescapeBytes rest with
            | none => none
            | some p => some { scheme := "", host := "", path := ⟨p⟩ }
        else if hasAuthority scheme rest then
          let afterSlashes := rest.drop 2
          let authority := afterSlashes.takeWhile (fun c => !(c == '/'))
          let rest2 := afterSlashes.dropWhile (fun c => !(c == '/'))
          match parseAuthority authority with
          | none => none
          | some host =>
            match unescapeBytes rest2 with
            | none => none
            | some p =>
              some { scheme := ⟨scheme.map Char.toLower⟩, host := ⟨host⟩, path := ⟨p⟩ }
        else
          match unescapeBytes rest with
          | none => none
          | some p => some { scheme := ⟨scheme.map Char.toLower⟩, host := "", path := ⟨p⟩ }

/-! ## parsePRURL (server, part_002 lines 19-48) -/

/-- Row produced by parsePRURL (type parsedPR in the source). -/
structure ParsedPR where
  owner : String
  repo : String
  number : Int
  url : String
  deriving Repr, DecidableEq

/-- Embedding of parsePRURL: trim whitespace, parse as URL, require host
github.com, split the slash-trimmed path into exactly four segments with
the third equal to pull, and read the fourth with Atoi. -/
def parsePRURL (rawIn : String) : Option ParsedPR :=
  let raw := goTrimSpace rawIn
  match urlParse raw with
  | none => none
  | some u =>
    if u.host ≠ "github.com" then none
    else
      match goSplitSlash (goTrimSlashes u.path) with
      | [a, b, p, num] =>
        if p ≠ "pull" then none
        else
          match atoi num with
          | none => none
          | some n => some { owner := a, repo := b, number := n, url := raw }
      | _ => none

/-- Declarative acceptance condition of the URL parser, stated from the
observable pipeline: after whitespace trimming the input parses as a URL
with host exactly github.com whose slash-trimmed path has exactly four
segments, the third being pull and the fourth an Atoi-parseable base-10
integer. -/
def prURLAccepted (rawIn : String) : Prop :=
  ∃ u a b num n,
    urlParse (goTrimSpace rawIn) = some u ∧
    u.host = "github.com" ∧
    goSplitSlash (goTrimSlashes u.path) = [a, b, "pull", num] ∧
    atoi num = some n

/-! ## Data model (db package)

Rows of the trackers, pull_requests and reviewers tables. The relational
store is a triple of row lists; point updates map over the rows exactly
as the UPDATE ... WHERE clauses do, and the auto-increment counters of
the two tables with generated ids are carried in the state. -/

/-- Row of the trackers table (db.Tracker). -/
structure Tracker where
  id : Int
  slackChannelID : String
  slackMessageTS : String
  status : String
  title : String
  deriving Repr, DecidableEq

/-- Row of the pull_requests table (db.PullRequest). -/
structure PullRequest where
  id : Int
  trackerID : Int
  githubOwner : String
  githubRepo : String
  githubPRNumber : Int
  githubPRURL : String
  title : String
  status : String
  approvalsRequired : Int
  approvalsCurrent : Int
  deriving Repr, DecidableEq

/-- The relational store: trackers, pull requests, reviewer rows
(pull_request_id, slack_user_id), and the auto-increment counters. -/
structure DBState where
  trackers : List Tracker
  prs : List PullRequest
  reviewers : List (Int × String)
  nextTrackerID : Int
  nextPRID : Int
  deriving Repr, DecidableEq

/-- db.FindPullRequest: point lookup by the (owner, repo, number)
triple; QueryRow returns the first matching row. -/
def findPullRequest (st : DBState) (owner repo : String) (number : Int) : Option PullRequest :=
  st.prs.find? (fun p =>
    p.githubOwner == owner && p.githubRepo == repo && p.githubPRNumber == number)

/-- db.UpdatePullRequestApprovals: UPDATE pull_requests SET
approvals_current WHERE id. -/
def updatePullRequestApprovals (st : DBState) (prID approvalsCurrent : Int) : DBState :=
  { st with prs := st.prs.map (fun p =>
      if p.id == prID then { p with approvalsCurrent := approvalsCurrent } else p) }

/-- db.UpdatePullRequestStatus: UPDATE pull_requests SET status WHERE
id. -/
def updatePullRequestStatus (st : DBState) (prID : Int) (status : String) : DBState :=
  { st with prs := st.prs.map (fun p =>
      if p.id == prID then { p with status := status } else p) }

/-- db.UpdatePullRequestTitle: UPDATE pull_requests SET title WHERE id. -/
def updatePullRequestTitle (st : DBState) (prID : Int) (title : String) : DBState :=
  { st with prs := st.prs.map (fun p =>
      if p.id == prID then { p with title := title } else p) }

/-- db.UpdateTrackerMessageTS: UPDATE trackers SET slack_message_ts
WHERE id. -/
def updateTrackerMessageTS (st : DBState) (trackerID : Int) (messageTS : String) : DBState :=
  { st with trackers := st.trackers.map (fun t =>
      if t.id == trackerID then { t with slackMessageTS := messageTS } else t) }

/-- db.UpdateTrackerTitle: UPDATE trackers SET title WHERE id. -/
def updateTrackerTitle (st : DBState) (trackerID : Int) (title : String) : DBState :=
  { st with trackers := st.trackers.map (fun t =>
      if t.id == trackerID then { t with title := title } else t) }

/-- db.GetTrackerByID: point lookup of a tracker row. -/
def getTrackerByID (st : DBState) (trackerID : Int) : Option Tracker :=
  st.trackers.find? (fun t => t.id == trackerID)

/-- db.GetPullRequestsByTracker: all PR rows of one tracker, in table
order. -/
def getPullRequestsByTracker (st : DBState) (trackerID : Int) : List PullRequest :=
  st.prs.filter (fun p => p.trackerID == trackerID)

/-- db.GetReviewersByPR: reviewer Slack user ids of one pull request, in
table order. -/
def getReviewersByPR (st : DBState) (prID : Int) : List String :=
  (st.reviewers.filter (fun r => r.1 == prID)).map (fun r => r.2)

/-- db.CreateTracker: INSERT INTO trackers with empty slack_message_ts;
status takes the schema default active; returns the generated id. -/
def createTracker (st : DBState) (channelID title : String) : Int × DBState :=
  let id := st.nextTrackerID
  (id, { st with
          trackers := st.trackers ++
            [{ id := id, slackChannelID := channelID, slackMessageTS := "",
               status := "active", title := title }],
          nextTrackerID := id + 1 })

/-- db.CreatePullRequest: INSERT INTO pull_requests; status and
approvals_current take the schema defaults open and 0; returns the
generated id. -/
def createPullRequest (st : DBState) (trackerID : Int) (owner repo : String)
    (number : Int) (url title : String) (approvalsRequired : Int) : Int × DBState :=
  let id := st.nextPRID
  (id, { st with
          prs := st.prs ++
            [{ id := id, trackerID := trackerID, githubOwner := owner,
               githubRepo := repo, githubPRNumber := number, githubPRURL := url,
               title := title, status := "open",
               approvalsRequired := approvalsRequired, approvalsCurrent := 0 }],
          nextPRID := id + 1 })

/-- db.CreateReviewer: INSERT INTO reviewers. -/
def createReviewer (st : DBState) (prID : Int) (slackUserID : String) : DBState :=
  { st with reviewers := st.reviewers ++ [(prID, slackUserID)] }

/-- db.DeletePullRequest: DELETE FROM pull_requests WHERE id. -/
def deletePullRequest (st : DBState) (prID : Int) : DBState :=
  { st with prs := st.prs.filter (fun p => !(p.id == prID)) }

/-- db.DeleteReviewersByPR: DELETE FROM reviewers WHERE pull_request_id. -/
def deleteReviewersByPR (st : DBState) (prID : Int) : DBState :=
  { st with reviewers := st.reviewers.filter (fun r => !(r.1 == prID)) }

/-- The count query of CompleteTrackerIfDone: SELECT COUNT(*) FROM
pull_requests WHERE tracker_id = ? AND status NOT IN
('merged', 'closed'). -/
def openPRCount (st : DBState) (trackerID : Int) : Nat :=
  (st.prs.filter (fun p =>
    p.trackerID == trackerID &&
    !(p.status == "merged") && !(p.status == "closed"))).length

/-- db.CompleteTrackerIfDone (db/tracker.go lines 65-88): count the PRs
of the tracker whose status is neither merged nor closed; when the count
is zero, set the tracker status to completed and report true, otherwise
leave the store untouched and report false. -/
def completeTrackerIfDone (st : DBState) (trackerID : Int) : Bool × DBState :=
  if openPRCount st trackerID > 0 then (false, st)
  else
    (true, { st with trackers := st.trackers.map (fun t =>
        if t.id == trackerID then { t with status := "completed" } else t) })

/-! ## Status derivation (initial snapshot, part_003 lines 292-309 and
496-512)

Both submission handlers contain the identical switch on the fetched
review-state snapshot; it is embedded once here and used by the
submission pipeline below. The empty string stands for the fall-through
case in which no status write is emitted and the row keeps the schema
default open. -/

/-- Snapshot of a PR fetched from GitHub (type prReviewState in
server/github_handler.go). -/
structure PRReviewState where
  title : String
  approvals : Int
  changesRequested : Bool
  merged : Bool
  closed : Bool
  deriving Repr, DecidableEq

/-- The initial-status switch shared verbatim by handleTrackPRSubmission
and handleEditTrackerSubmission: priority merged over closed over
changes_requested over approved, with the empty string meaning no status
change is emitted. -/
def deriveInitialStatus (reviewState : PRReviewState) (approvalsRequired : Int) : String :=
  if reviewState.merged then "merged"
  else if reviewState.closed then "closed"
  else if reviewState.changesRequested then "changes_requested"
  else if reviewState.approvals ≥ approvalsRequired then "approved"
  else ""

/-- The guarded write following the switch: only a non-empty derived
status is persisted onto the freshly created row. -/
def initialStatusWrite (derived : String) (row : PullRequest) : PullRequest :=
  if derived ≠ "" then { row with status := derived } else row

/-! ## Event reconciler (server/github_handler.go) -/

/-- Side effects of a reconciliation step: Slack message updates and
posts. -/
inductive Effect where
  | render (trackerID : Int)
  | post (channelID : String)
  deriving Repr, DecidableEq

/-- Fields of a pull_request_review webhook event the handler reads. -/
structure ReviewEvent where
  action : String
  reviewState : String
  owner : String
  repo : String
  number : Int
  deriving Repr, DecidableEq

/-- Fields of a pull_request webhook event the handler reads. -/
structure StateChangeEvent where
  action : String
  owner : String
  repo : String
  number : Int
  title : String
  merged : Bool
  deriving Repr, DecidableEq

/-- handlePRReview (server/github_handler.go lines 65-110): ignore
non-submitted actions and non-actionable review states; silently ignore
untracked PRs; an approved review increments the stored count by one and
promotes the status to approved when the new count meets the threshold
and the status is not already approved; a changes_requested review
resets the count to zero and sets the status unconditionally; every
mutating branch ends with a tracker-message update. Store writes are
modelled as succeeding (the Go code only logs and aborts on write
errors). -/
def handlePRReview (st : DBState) (event : ReviewEvent) : DBState × List Effect :=
  if event.action ≠ "submitted" then (st, [])
  else if event.reviewState ≠ "approved" ∧ event.reviewState ≠ "changes_requested" then
    (st, [])
  else
    match findPullRequest st event.owner event.repo event.number with
    | none => (st, [])
    | some pr =>
      if event.reviewState = "approved" then
        let newApprovals := pr.approvalsCurrent + 1
        let st1 := updatePullRequestApprovals st pr.id newApprovals
        let st2 :=
          if newApprovals ≥ pr.approvalsRequired ∧ pr.status ≠ "approved" then
            updatePullRequestStatus st1 pr.id "approved"
          else st1
        (st2, [Effect.render pr.trackerID])
      else
        let st1 := updatePullRequestApprovals st pr.id 0
        let st2 := updatePullRequestStatus st1 pr.id "changes_requested"
        (st2, [Effect.render pr.trackerID])

/-- handlePRStateChange (server/github_handler.go lines 115-163):
silently ignore untracked PRs; sync a non-empty changed title on any
action; for non-closed actions only refresh the message; for closed
actions set the terminal status (merged when the platform reports the
merge), run the tracker completion check, and refresh the message. -/
def handlePRStateChange (st : DBState) (event : StateChangeEvent) : DBState × List Effect :=
  match findPullRequest st event.owner event.repo event.number with
  | none => (st, [])
  | some pr =>
    let st1 :=
      if event.title ≠ "" ∧ event.title ≠ pr.title then
        updatePullRequestTitle st pr.id event.title
      else st
    if event.action ≠ "closed" then (st1, [Effect.render pr.trackerID])
    else
      let status := if event.merged then "merged" else "closed"
      let st2 := updatePullRequestStatus st1 pr.id status
      let st3 := (completeTrackerIfDone st2 pr.trackerID).2
      (st3, [Effect.render pr.trackerID])

/-! ## Dynamic form state and submission (part_003)

The modal's URL inputs form an implicit array keyed pr_url_block_0,
pr_url_block_1, ...: the handlers read slots by index starting at 0 and
stop at the first missing block. The view-state map is modelled as a
list whose i-th entry is the i-th slot's value when that block exists;
reading stops at the first absent entry, so blocks after a hole are
ignored exactly as in the Go loops. -/

/-- Sequential slot read shared by handleAddRemovePR,
handleTrackPRSubmission and handleEditTrackerSubmission: collect values
from index 0 until a missing block. -/
def readSlots : List (Option String) → List String
  | [] => []
  | none :: _ => []
  | some v :: rest => v :: readSlots rest

/-- Block id of slot i. -/
def prURLBlockID (i : Nat) : String :=
  "pr_url_block_" ++ toString i

/-- The URL-collection loop of handleTrackPRSubmission (lines 200-227):
parse each read slot in order; the first unparseable slot aborts the
whole submission with an error keyed by that slot's block id. -/
def collectPRs (i : Nat) : List String → Except String (List ParsedPR)
  | [] => Except.ok []
  | raw :: rest =>
    match parsePRURL raw with
    | none => Except.error (prURLBlockID i)
    | some pr =>
      match collectPRs (i + 1) rest with
      | Except.error e => Except.error e
      | Except.ok prs => Except.ok (pr :: prs)

/-- Index of the first slot whose value parsePRURL rejects. -/
def firstBadSlot (i : Nat) : List String → Option Nat
  | [] => none
  | raw :: rest =>
    if (parsePRURL raw).isSome then firstBadSlot (i + 1) rest else some i

/-- View state of the track modal as the submission handler reads it. -/
structure TrackForm where
  channelID : String
  title : String
  reviewerIDs : List String
  slots : List (Option String)

/-- Oracle for the external collaborators consulted during submission:
the per-repo required-approval count (already defaulted to 1 on fetch
failure, as the code does), the per-PR review-state snapshot (the zero
snapshot on fetch failure, as the code continues with it), and the
message timestamp Slack returns for the posted tracker message. -/
structure GitHubOracle where
  requiredApprovals : String → String → Int
  reviewState : String → String → Int → PRReviewState
  messageTS : String

/-- Outcome of a modal submission as Slack sees it. -/
inductive SubmissionResult where
  | validationError (blockID : String)
  | ok
  deriving Repr, DecidableEq

/-- Per-PR insertion step of handleTrackPRSubmission (lines 270-318):
create the row, write a positive initial approval count, write the
derived initial status when non-empty, and link every reviewer. -/
def insertSubmittedPR (gh : GitHubOracle) (trackerID : Int) (reviewerIDs : List String)
    (st : DBState) (pr : ParsedPR) : DBState :=
  let approvalsRequired := gh.requiredApprovals pr.owner pr.repo
  let reviewState := gh.reviewState pr.owner pr.repo pr.number
  let (prID, st1) := createPullRequest st trackerID pr.owner pr.repo pr.number pr.url
    reviewState.title approvalsRequired
  let st2 :=
    if reviewState.approvals > 0 then
      updatePullRequestApprovals st1 prID reviewState.approvals
    else st1
  let derived := deriveInitialStatus reviewState approvalsRequired
  let st3 := if derived ≠ "" then updatePullRequestStatus st2 prID derived else st2
  reviewerIDs.foldl (fun acc uid => createReviewer acc prID uid) st3

/-- handleTrackPRSubmission (part_003 lines 193-340): read the slots
sequentially, abort with a field-scoped validation error on the first
unparseable slot or on an empty read, otherwise create the tracker and
its PR rows, post the placeholder message, store its timestamp and
refresh the message. The per-repo approval cache is modelled by direct
oracle lookup (the cache only avoids duplicate identical calls), and
collaborator calls are modelled as succeeding. -/
def handleTrackPRSubmission (st : DBState) (gh : GitHubOracle) (form : TrackForm) :
    SubmissionResult × DBState × List Effect :=
  let slots := readSlots form.slots
  match collectPRs 0 slots with
  | Except.error blockID => (SubmissionResult.validationError blockID, st, [])
  | Except.ok prs =>
    if prs.isEmpty then (SubmissionResult.validationError "pr_url_block_0", st, [])
    else
      let (trackerID, st1) := createTracker st form.channelID form.title
      let st2 := prs.foldl (insertSubmittedPR gh trackerID form.reviewerIDs) st1
      let st3 := updateTrackerMessageTS st2 trackerID gh.messageTS
      (SubmissionResult.ok, st3, [Effect.post form.channelID, Effect.render trackerID])

/-! ## Dynamic form layout transitions (part_003 lines 55-109) -/

/-- The two block actions routed to handleAddRemovePR. -/
inductive FormAction where
  | add
  | remove
  deriving Repr, DecidableEq

/-- handleAddRemovePR: count the visible URL slots and collect their
values by the sequential read, then add one slot, or drop the last slot
and its value when more than one is visible. The result is the rebuilt
layout's slot count and the values carried into it. -/
def handleAddRemovePR (values : List (Option String)) (action : FormAction) :
    Nat × List String :=
  let currentURLs := readSlots values
  let numURLFields := currentURLs.length
  match action with
  | FormAction.add => (numURLFields + 1, currentURLs)
  | FormAction.remove =>
    if numURLFields > 1 then (numURLFields - 1, currentURLs.take (numURLFields - 1))
    else (numURLFields, currentURLs)

/-- Modelled from the spec: the rebuilt modal layout produced by
buildEditModalBlocks (referenced by part_003 but not among the provided
sources) and by Slack's value retention for buildTrackModalBlocks. Per
section 4.6 of the specification, the rebuilt layout exposes the new
slot count and carries every already-entered value forward unchanged,
slots beyond the carried values starting empty. -/
def rebuiltSlots (numURLFields : Nat) (urls : List String) : List (Option String) :=
  (List.range numURLFields).map (fun i => some (urls.getD i ""))

/-! ## View renderer (server/slack_handler.go lines 120-220)

updateTrackerMessage loads the tracker row, its PR rows and the union
of their reviewers, then builds the message text. The reviewer union is
a Go map and its range order is unspecified, so the text builder takes
the enumeration order of that set as an explicit argument; a list is a
legitimate enumeration exactly when it is a permutation of the
de-duplicated reviewer pool. -/

/-- statusEmoji: fixed status to glyph table. -/
def statusEmoji (status : String) : String :=
  if status == "approved" then ":white_check_mark:"
  else if status == "changes_requested" then ":x:"
  else if status == "merged" then ":purple_circle:"
  else if status == "closed" then ":red_circle:"
  else ":white_circle:"

/-- statusLabel: fixed status to human label table. -/
def statusLabel (status : String) : String :=
  if status == "approved" then "approved"
  else if status == "changes_requested" then "changes requested"
  else if status == "merged" then "merged"
  else if status == "closed" then "closed"
  else "awaiting review"

/-- Title line of the tracker message: the bold tracker title with a
generic fallback when empty, plus the completion marker. -/
def trackerTitleLine (t : Tracker) : String :=
  let title := if t.title == "" then "*PR Tracker*" else "*" ++ t.title ++ "*"
  if t.status == "completed" then title ++ " — :tada: All done!" else title

/-- One bullet line per pull request: linked label, glyph, human label
and the approval fraction suppressed for terminal statuses. -/
def prLine (pr : PullRequest) : String :=
  let suffix :=
    if pr.status == "merged" || pr.status == "closed" then ""
    else " (" ++ toString pr.approvalsCurrent ++ "/" ++
      toString pr.approvalsRequired ++ " approvals)"
  let prLabel :=
    if pr.title == "" then
      pr.githubOwner ++ "/" ++ pr.githubRepo ++ "#" ++ toString pr.githubPRNumber
    else pr.title
  "• <" ++ pr.githubPRURL ++ "|" ++ prLabel ++ "> — " ++
    statusEmoji pr.status ++ " " ++ statusLabel pr.status ++ suffix

/-- Slack mention of one reviewer. -/
def mention (uid : String) : String :=
  "<@" ++ uid ++ ">"

/-- Trailing reviewers line, built from the enumeration order of the
reviewer set. -/
def reviewerLine (order : List String) : String :=
  "\nReviewers: " ++ String.intercalate " " (order.map mention)

/-- The lines of the message that do not depend on the reviewer-set
enumeration: title line then one line per PR. -/
def fixedLines (t : Tracker) (prs : List PullRequest) : List String :=
  (trackerTitleLine t ++ "\n") :: prs.map prLine

/-- All lines of the tracker message. -/
def renderLines (t : Tracker) (prs : List PullRequest) (order : List String) :
    List String :=
  (trackerTitleLine t ++ "\n") :: prs.map prLine ++ [reviewerLine order]

/-- The full message text built by updateTrackerMessage. -/
def renderTrackerText (t : Tracker) (prs : List PullRequest) (order : List String) :
    String :=
  String.intercalate "\n" (renderLines t prs order)

/-- The reviewer pool updateTrackerMessage accumulates: the reviewers of
every PR of the tracker, in query order and with repetitions (the Go map
insertion de-duplicates; enumeration validity is phrased against the
de-duplicated pool). -/
def trackerReviewerPool (st : DBState) (trackerID : Int) : List String :=
  (getPullRequestsByTracker st trackerID).flatMap (fun pr => getReviewersByPR st pr.id)

/-- A list is a legitimate Go map range order of the reviewer set
exactly when it is a permutation of the distinct reviewers. -/
@[reducible]
def validReviewerEnum (st : DBState) (trackerID : Int) (order : List String) : Prop :=
  order.Perm (trackerReviewerPool st trackerID).dedup

/-! ## Concrete fixtures for witness and counterexample theorems -/

/-- A tracked pull request awaiting one more approval. -/
def prFix : PullRequest :=
  { id := 1, trackerID := 1, githubOwner := "o", githubRepo := "r", githubPRNumber := 5,
    githubPRURL := "https://github.com/o/r/pull/5", title := "Fix bug", status := "open",
    approvalsRequired := 2, approvalsCurrent := 1 }

/-- An active tracker row. -/
def trackerFix : Tracker :=
  { id := 1, slackChannelID := "C1", slackMessageTS := "111.222", status := "active",
    title := "T" }

/-- Store with one active tracker, one open PR and two reviewers. -/
def stFix : DBState :=
  { trackers := [trackerFix], prs := [prFix], reviewers := [(1, "U1"), (1, "U2")],
    nextTrackerID := 2, nextPRID := 2 }

/-- The same pull request already merged with its threshold met by one
more approval. -/
def prMerged : PullRequest :=
  { id := 1, trackerID := 1, githubOwner := "o", githubRepo := "r", githubPRNumber := 5,
    githubPRURL := "https://github.com/o/r/pull/5", title := "Fix bug", status := "merged",
    approvalsRequired := 1, approvalsCurrent := 1 }

/-- Store whose only pull request is already merged. -/
def stMerged : DBState :=
  { trackers := [trackerFix], prs := [prMerged], reviewers := [(1, "U1"), (1, "U2")],
    nextTrackerID := 2, nextPRID := 2 }

/-- A tracker row already marked completed. -/
def trackerDone : Tracker :=
  { id := 1, slackChannelID := "C1", slackMessageTS := "111.222", status := "completed",
    title := "T" }

/-- Store whose tracker is already completed and whose only PR is
merged. -/
def stDone : DBState :=
  { trackers := [trackerDone], prs := [prMerged], reviewers := [(1, "U1")],
    nextTrackerID := 2, nextPRID := 2 }

/-- An approved review-submitted event for the tracked PR. -/
def evApproved : ReviewEvent :=
  { action := "submitted", reviewState := "approved", owner := "o", repo := "r", number := 5 }

/-- A changes-requested review-submitted event for the tracked PR. -/
def evChanges : ReviewEvent :=
  { action := "submitted", reviewState := "changes_requested", owner := "o", repo := "r",
    number := 5 }

/-- A review event for a pull request the store does not track. -/
def evUnknown : ReviewEvent :=
  { action := "submitted", reviewState := "approved", owner := "x", repo := "y", number := 9 }

/-- A close event for a pull request the store does not track. -/
def evUnknownClose : StateChangeEvent :=
  { action := "closed", owner := "x", repo := "y", number := 9, title := "", merged := true }

/-- A GitHub oracle returning fixed benign data. -/
def ghFix : GitHubOracle :=
  { requiredApprovals := fun _ _ => 1,
    reviewState := fun _ _ _ =>
      { title := "", approvals := 0, changesRequested := false, merged := false,
        closed := false },
    messageTS := "333.444" }

/-- A form whose only read slot holds an unparseable URL. -/
def formBad : TrackForm :=
  { channelID := "C1", title := "T", reviewerIDs := ["U1"], slots := [some "bad"] }

/-- A form with no URL slots at all. -/
def formEmpty : TrackForm :=
  { channelID := "C1", title := "T", reviewerIDs := ["U1"], slots := [] }

/-! ## Theorems -/

/-- C1: the initial-status derivation is a total fixed priority: merged
wins regardless of other fields, then closed, then changes_requested,
then approved exactly when the approval count meets the threshold, and
otherwise no status change is emitted (the row keeps its value). -/
theorem deriveStatus_priority_total :
    ∀ (s : PRReviewState) (required : Int) (row : PullRequest),
      (s.merged = true → deriveInitialStatus s required = "merged") ∧
      (s.merged = false → s.closed = true → deriveInitialStatus s required = "closed") ∧
      (s.merged = false → s.closed = false → s.changesRequested = true →
        deriveInitialStatus s required = "changes_requested") ∧
      (s.merged = false → s.closed = false → s.changesRequested = false →
        required ≤ s.approvals → deriveInitialStatus s required = "approved") ∧
      (s.merged = false → s.closed = false → s.changesRequested = false →
        s.approvals < required →
        deriveInitialStatus s required = "" ∧
        initialStatusWrite (deriveInitialStatus s required) row = row) := by
  intro s required row
  refine ⟨?_, ?_, ?_, ?_, ?_⟩ <;> intros <;>
    simp_all [deriveInitialStatus, initialStatusWrite, ge_iff_le, not_le.mpr]

/-- Witness for C1 at concrete snapshots. -/
theorem deriveStatus_priority_total_witness :
    deriveInitialStatus
      { title := "", approvals := 0, changesRequested := true, merged := true, closed := true } 1 =
      "merged" ∧
    deriveInitialStatus
      { title := "", approvals := 1, changesRequested := false, merged := false, closed := false } 2 =
      "" := by
  constructor
  · exact (deriveStatus_priority_total
      { title := "", approvals := 0, changesRequested := true, merged := true, closed := true } 1
      { id := 0, trackerID := 0, githubOwner := "", githubRepo := "", githubPRNumber := 0,
        githubPRURL := "", title := "", status := "open", approvalsRequired := 1,
        approvalsCurrent := 0 }).1 rfl
  · exact ((deriveStatus_priority_total
      { title := "", approvals := 1, changesRequested := false, merged := false, closed := false } 2
      { id := 0, trackerID := 0, githubOwner := "", githubRepo := "", githubPRNumber := 0,
        githubPRURL := "", title := "", status := "open", approvalsRequired := 1,
        approvalsCurrent := 0 }).2.2.2.2 rfl rfl rfl (by decide)).1

/-- C3: an approved review-submitted event on a tracked PR adds exactly
one to the stored approval count of the matching row and sets the status
to approved exactly when the new count meets the threshold and the
current status is not already approved; all other rows and tables are
untouched. -/
theorem approved_event_increments_by_one :
    ∀ (st : DBState) (ev : ReviewEvent) (pr : PullRequest),
      ev.action = "submitted" → ev.reviewState = "approved" →
      findPullRequest st ev.owner ev.repo ev.number = some pr →
      (handlePRReview st ev).1.prs = st.prs.map (fun p =>
        if p.id == pr.id then
          { p with approvalsCurrent := pr.approvalsCurrent + 1,
                   status :=
                     if pr.approvalsCurrent + 1 ≥ pr.approvalsRequired ∧ pr.status ≠ "approved"
                     then "approved" else p.status }
        else p) ∧
      (handlePRReview st ev).1.trackers = st.trackers ∧
      (handlePRReview st ev).1.reviewers = st.reviewers := by
  intro st ev pr hact hrs hfind
  simp only [handlePRReview, hact, hrs, hfind]
  simp only [ne_eq, not_true_eq_false, if_false, false_and, if_true]
  by_cases hcond : pr.approvalsCurrent + 1 ≥ pr.approvalsRequired ∧ pr.status ≠ "approved"
  · simp only [hcond, if_true, updatePullRequestStatus, updatePullRequestApprovals,
      List.map_map]
    refine ⟨?_, rfl, rfl⟩
    apply List.map_congr_left
    intro p _
    by_cases hp : p.id == pr.id <;> simp [hp, Function.comp]
  · simp [hcond, updatePullRequestApprovals]

/-! ### Helper lemmas about handlePRReview (shared by several claims) -/

/-- Store effect of the approved branch of handlePRReview. -/
theorem handlePRReview_approved_eq (st : DBState) (ev : ReviewEvent) (pr : PullRequest)
    (hact : ev.action = "submitted") (hrs : ev.reviewState = "approved")
    (hfind : findPullRequest st ev.owner ev.repo ev.number = some pr) :
    (handlePRReview st ev).1.prs = st.prs.map (fun p =>
      if p.id == pr.id then
        { p with approvalsCurrent := pr.approvalsCurrent + 1,
                 status :=
                   if pr.approvalsCurrent + 1 ≥ pr.approvalsRequired ∧ pr.status ≠ "approved"
                   then "approved" else p.status }
      else p) ∧
    (handlePRReview st ev).1.trackers = st.trackers ∧
    (handlePRReview st ev).1.reviewers = st.reviewers := by
  simp only [handlePRReview, hact, hrs, hfind]
  simp only [ne_eq, not_true_eq_false, if_false, false_and, if_true]
  by_cases hcond : pr.approvalsCurrent + 1 ≥ pr.approvalsRequired ∧ pr.status ≠ "approved"
  · simp only [hcond, if_true, updatePullRequestStatus, updatePullRequestApprovals,
      List.map_map]
    refine ⟨?_, rfl, rfl⟩
    apply List.map_congr_left
    intro p _
    by_cases hp : p.id == pr.id <;> simp [hp, Function.comp]
  · simp [hcond, updatePullRequestApprovals]

/-- Store effect of the changes-requested branch of handlePRReview. -/
theorem handlePRReview_changes_eq (st : DBState) (ev : ReviewEvent) (pr : PullRequest)
    (hact : ev.action = "submitted") (hrs : ev.reviewState = "changes_requested")
    (hfind : findPullRequest st ev.owner ev.repo ev.number = some pr) :
    (handlePRReview st ev).1.prs = st.prs.map (fun p =>
      if p.id == pr.id then
        { p with approvalsCurrent := 0, status := "changes_requested" }
      else p) ∧
    (handlePRReview st ev).1.trackers = st.trackers ∧
    (handlePRReview st ev).1.reviewers = st.reviewers := by
  simp only [handlePRReview, hact, hrs, hfind]
  norm_num
  simp only [updatePullRequestStatus, updatePullRequestApprovals, List.map_map]
  refine ⟨?_, rfl, rfl⟩
  apply List.map_congr_left
  intro p _
  by_cases hp : p.id = pr.id <;> simp [hp, Function.comp]

/-- handlePRReview never writes status open: a row that is open
afterwards was open before. -/
theorem handlePRReview_no_new_open (st : DBState) (ev : ReviewEvent) :
    ∀ q ∈ (handlePRReview st ev).1.prs, q.status = "open" →
      ∃ q0 ∈ st.prs, q0.status = "open" := by
  intro q hq hopen
  simp only [handlePRReview] at hq
  split at hq
  · exact ⟨q, hq, hopen⟩
  · split at hq
    · exact ⟨q, hq, hopen⟩
    · split at hq
      · exact ⟨q, hq, hopen⟩
      · rename_i pr hfind
        split at hq
        · split at hq
          · simp only [updatePullRequestStatus, updatePullRequestApprovals,
              List.map_map, List.mem_map] at hq
            obtain ⟨p, hp, hpe⟩ := hq
            by_cases hid : p.id == pr.id
            · subst hpe; simp [Function.comp, hid] at hopen
            · refine ⟨p, hp, ?_⟩
              subst hpe; simpa [Function.comp, hid] using hopen
          · simp only [updatePullRequestApprovals, List.mem_map] at hq
            obtain ⟨p, hp, hpe⟩ := hq
            by_cases hid : p.id == pr.id
            · refine ⟨p, hp, ?_⟩
              subst hpe; simpa [hid] using hopen
            · refine ⟨p, hp, ?_⟩
              subst hpe; simpa [hid] using hopen
        · simp only [updatePullRequestStatus, updatePullRequestApprovals,
            List.map_map, List.mem_map] at hq
          obtain ⟨p, hp, hpe⟩ := hq
          by_cases hid : p.id == pr.id
          · subst hpe; simp [Function.comp, hid] at hopen
          · refine ⟨p, hp, ?_⟩
            subst hpe; simpa [Function.comp, hid] using hopen

/-- C4: a changes-requested review-submitted event on a tracked PR
resets the stored approval count to 0 and sets the status to
changes_requested unconditionally; all other rows and tables are
untouched. -/
theorem changes_requested_resets_and_overrides :
    ∀ (st : DBState) (ev : ReviewEvent) (pr : PullRequest),
      ev.action = "submitted" → ev.reviewState = "changes_requested" →
      findPullRequest st ev.owner ev.repo ev.number = some pr →
      (handlePRReview st ev).1.prs = st.prs.map (fun p =>
        if p.id == pr.id then
          { p with approvalsCurrent := 0, status := "changes_requested" }
        else p) ∧
      (handlePRReview st ev).1.trackers = st.trackers ∧
      (handlePRReview st ev).1.reviewers = st.reviewers := by
  intro st ev pr hact hrs hfind
  exact handlePRReview_changes_eq st ev pr hact hrs hfind

/-- Witness for C4: on the concrete store the approved-then-reset
behaviour is observable. -/
theorem changes_requested_resets_witness :
    (handlePRReview stFix evChanges).1.prs.map PullRequest.approvalsCurrent = [0] ∧
    (handlePRReview stFix evChanges).1.prs.map PullRequest.status = ["changes_requested"] := by
  have h := changes_requested_resets_and_overrides stFix evChanges prFix rfl rfl (by decide)
  rw [h.1]
  decide

/-- C7: an event whose (owner, repo, number) triple matches no stored
row leaves the store untouched and produces no effect, for both review
events and state-change events. -/
theorem unknown_pr_silently_ignored :
    ∀ (st : DBState) (rev : ReviewEvent) (sc : StateChangeEvent),
      (findPullRequest st rev.owner rev.repo rev.number = none →
        handlePRReview st rev = (st, [])) ∧
      (findPullRequest st sc.owner sc.repo sc.number = none →
        handlePRStateChange st sc = (st, [])) := by
  intro st rev sc
  constructor
  · intro h
    unfold handlePRReview
    split
    · rfl
    · split
      · rfl
      · rw [h]
  · intro h
    unfold handlePRStateChange
    rw [h]

/-- Witness for C7 at a concrete store and unknown triples. -/
theorem unknown_pr_silently_ignored_witness :
    handlePRReview stFix evUnknown = (stFix, []) ∧
    handlePRStateChange stFix evUnknownClose = (stFix, []) := by
  have h := unknown_pr_silently_ignored stFix evUnknown evUnknownClose
  exact ⟨h.1 (by decide), h.2 (by decide)⟩

/-- Counterexample to C2: on a store whose only PR is merged with its
threshold reachable, an approved review-submitted event changes the
stored status from merged to approved. -/
theorem merged_pr_downgraded_counterexample :
    stMerged.prs.map PullRequest.status = ["merged"] ∧
    (handlePRReview stMerged evApproved).1.prs.map PullRequest.status = ["approved"] := by
  constructor
  · decide
  · decide

/-- C2 amended: merged and closed are not terminal under
review-submitted events. On a tracked PR whose status is merged or
closed, an approved event still increments the count and promotes the
status to approved when the new count meets the threshold, and a
changes-requested event unconditionally resets the count and sets
changes_requested; what does hold is that no review-submitted event ever
sets a status back to open. -/
theorem merged_closed_events_amended :
    ∀ (st : DBState) (ev : ReviewEvent) (pr : PullRequest),
      ev.action = "submitted" →
      findPullRequest st ev.owner ev.repo ev.number = some pr →
      pr.status = "merged" ∨ pr.status = "closed" →
      (ev.reviewState = "approved" →
        (handlePRReview st ev).1.prs = st.prs.map (fun p =>
          if p.id == pr.id then
            { p with approvalsCurrent := pr.approvalsCurrent + 1,
                     status := if pr.approvalsCurrent + 1 ≥ pr.approvalsRequired
                               then "approved" else p.status }
          else p)) ∧
      (ev.reviewState = "changes_requested" →
        (handlePRReview st ev).1.prs = st.prs.map (fun p =>
          if p.id == pr.id then
            { p with approvalsCurrent := 0, status := "changes_requested" }
          else p)) ∧
      (∀ q ∈ (handlePRReview st ev).1.prs, q.status = "open" →
        ∃ q0 ∈ st.prs, q0.status = "open") := by
  intro st ev pr hact hfind hterm
  have hnotappr : pr.status ≠ "approved" := by
    rcases hterm with h | h <;> simp [h]
  refine ⟨?_, ?_, handlePRReview_no_new_open st ev⟩
  · intro hrs
    rw [(handlePRReview_approved_eq st ev pr hact hrs hfind).1]
    apply List.map_congr_left
    intro p _
    by_cases hp : p.id == pr.id
    · simp only [hp, if_true]
      by_cases hge : pr.approvalsCurrent + 1 ≥ pr.approvalsRequired
      · simp [hge, hnotappr]
      · simp [hge]
    · simp [hp]
  · intro hrs
    exact (handlePRReview_changes_eq st ev pr hact hrs hfind).1

/-- Witness for the amended C2 on the concrete merged store. -/
theorem merged_closed_events_amended_witness :
    (handlePRReview stMerged evApproved).1.prs.map PullRequest.approvalsCurrent = [2] ∧
    (handlePRReview stMerged evApproved).1.prs.map PullRequest.status = ["approved"] := by
  have h := merged_closed_events_amended stMerged evApproved prMerged rfl (by decide)
    (Or.inl rfl)
  rw [h.1 rfl]
  decide

/-- Witness for C3 on the concrete store: the count reaches the
threshold and the status is promoted. -/
theorem approved_event_increments_witness :
    (handlePRReview stFix evApproved).1.prs.map PullRequest.approvalsCurrent = [2] ∧
    (handlePRReview stFix evApproved).1.prs.map PullRequest.status = ["approved"] := by
  have h := approved_event_increments_by_one stFix evApproved prFix rfl rfl (by decide)
  rw [h.1]
  decide

/-! ### Helper lemmas for the completion check -/

/-- The non-terminal count is zero exactly when every PR of the tracker
is merged or closed. -/
theorem openPRCount_zero_iff (st : DBState) (trackerID : Int) :
    openPRCount st trackerID = 0 ↔
    ∀ p ∈ st.prs, p.trackerID = trackerID →
      p.status = "merged" ∨ p.status = "closed" := by
  rw [openPRCount, List.length_eq_zero, List.filter_eq_nil_iff]
  constructor
  · intro h p hp htid
    have hb := h p hp
    simp only [htid, beq_self_eq_true, Bool.true_and, Bool.and_eq_true, Bool.not_eq_true',
      beq_eq_false_iff_ne, ne_eq, not_and, not_not] at hb
    by_cases hm : p.status = "merged"
    · exact Or.inl hm
    · exact Or.inr (hb hm)
  · intro h p hp
    simp only [Bool.and_eq_true, beq_iff_eq, Bool.not_eq_true', beq_eq_false_iff_ne, ne_eq,
      not_and, not_not]
    intro hpair
    rcases h p hp hpair.1 with hm | hc
    · exact absurd hm hpair.2
    · exact hc

/-- Negative branch of the completion check. -/
theorem completeTracker_neg (st : DBState) (trackerID : Int)
    (h : 0 < openPRCount st trackerID) :
    completeTrackerIfDone st trackerID = (false, st) := by
  simp [completeTrackerIfDone, h]

/-- Positive branch of the completion check. -/
theorem completeTracker_pos (st : DBState) (trackerID : Int)
    (h : openPRCount st trackerID = 0) :
    completeTrackerIfDone st trackerID =
      (true, { st with trackers := st.trackers.map (fun t =>
          if t.id == trackerID then { t with status := "completed" } else t) }) := by
  simp [completeTrackerIfDone, h]

/-- C5: the completion check reports completed exactly when no PR of the
tracker has a status outside merged and closed; a negative check leaves
the store untouched; a positive check marks the tracker completed; and
the whole operation is idempotent, so re-invoking it on the resulting
store (in particular on an already-completed tracker whose PRs are all
terminal) changes nothing. -/
theorem completeTracker_iff_idempotent :
    ∀ (st : DBState) (trackerID : Int),
      ((completeTrackerIfDone st trackerID).1 = true ↔
        ∀ p ∈ st.prs, p.trackerID = trackerID →
          p.status = "merged" ∨ p.status = "closed") ∧
      ((completeTrackerIfDone st trackerID).1 = false →
        (completeTrackerIfDone st trackerID).2 = st) ∧
      ((completeTrackerIfDone st trackerID).1 = true →
        ∀ t ∈ (completeTrackerIfDone st trackerID).2.trackers,
          t.id = trackerID → t.status = "completed") ∧
      completeTrackerIfDone (completeTrackerIfDone st trackerID).2 trackerID =
        completeTrackerIfDone st trackerID := by
  intro st trackerID
  by_cases hcnt : openPRCount st trackerID = 0
  · rw [completeTracker_pos st trackerID hcnt]
    have hsame : openPRCount { st with trackers := st.trackers.map (fun t =>
        if t.id == trackerID then { t with status := "completed" } else t) } trackerID =
        openPRCount st trackerID := rfl
    refine ⟨?_, ?_, ?_, ?_⟩
    · simp only [eq_self_iff_true, true_iff]
      exact (openPRCount_zero_iff st trackerID).mp hcnt
    · intro h; simp at h
    · intro _ t ht htid
      simp only [List.mem_map] at ht
      obtain ⟨t0, _, ht0⟩ := ht
      by_cases hid : t0.id == trackerID
      · rw [← ht0]; simp [hid]
      · exfalso
        rw [← ht0] at htid
        simp only [hid, if_false] at htid
        exact absurd (beq_iff_eq.mpr htid) hid
    · rw [completeTracker_pos _ trackerID (hsame.trans hcnt)]
      simp only [Prod.mk.injEq, true_and]
      congr 1
      rw [List.map_map]
      apply List.map_congr_left
      intro t _
      by_cases hid : t.id == trackerID <;> simp [hid, Function.comp]
  · have hpos : 0 < openPRCount st trackerID := Nat.pos_of_ne_zero hcnt
    rw [completeTracker_neg st trackerID hpos]
    refine ⟨?_, fun _ => rfl, ?_, ?_⟩
    · constructor
      · intro h; simp at h
      · intro hall
        exact absurd ((openPRCount_zero_iff st trackerID).mpr hall) hcnt
    · intro h; simp at h
    · rw [completeTracker_neg st trackerID hpos]

/-- Witness for C5: on a store with one merged PR the check completes
the tracker, and on the already-completed store it is a no-op. -/
theorem completeTracker_witness :
    (completeTrackerIfDone stDone 1).1 = true ∧
    completeTrackerIfDone (completeTrackerIfDone stDone 1).2 1 =
      completeTrackerIfDone stDone 1 := by
  have h := completeTracker_iff_idempotent stDone 1
  refine ⟨h.1.mpr ?_, h.2.2.2⟩
  decide

/-! ### Helper lemmas for form submission and layout -/

/-- The collection loop fails with the block id of the first unparseable
slot. -/
theorem collectPRs_error_of_firstBad :
    ∀ (slots : List String) (i j : Nat),
      firstBadSlot i slots = some j →
      collectPRs i slots = Except.error (prURLBlockID j) := by
  intro slots
  induction slots with
  | nil =>
    intro i j h
    simp [firstBadSlot] at h
  | cons raw rest ih =>
    intro i j h
    simp only [firstBadSlot] at h
    by_cases hp : (parsePRURL raw).isSome
    · rw [if_pos hp] at h
      simp only [collectPRs]
      cases hpr : parsePRURL raw with
      | none => rw [hpr] at hp; simp at hp
      | some pr =>
        rw [ih (i + 1) j h]
    · rw [if_neg hp] at h
      injection h with hj
      subst hj
      simp only [collectPRs]
      cases hpr : parsePRURL raw with
      | none => rfl
      | some pr => rw [hpr] at hp; simp at hp

/-- C6: submission is atomic with respect to validation. When the
sequential slot read contains an unparseable URL, the whole submission
fails with a validation error scoped to the first such slot's block and
neither the store nor the effect list changes; when zero slots were
read, it fails naming the first slot, again without writing. -/
theorem submission_validation_atomic :
    ∀ (st : DBState) (gh : GitHubOracle) (form : TrackForm),
      (∀ j, firstBadSlot 0 (readSlots form.slots) = some j →
        handleTrackPRSubmission st gh form =
          (SubmissionResult.validationError (prURLBlockID j), st, [])) ∧
      (readSlots form.slots = [] →
        handleTrackPRSubmission st gh form =
          (SubmissionResult.validationError "pr_url_block_0", st, [])) := by
  intro st gh form
  constructor
  · intro j h
    have hc := collectPRs_error_of_firstBad (readSlots form.slots) 0 j h
    simp [handleTrackPRSubmission, hc]
  · intro h
    simp [handleTrackPRSubmission, h, collectPRs]

/-- Witness for C6: a form whose first slot is unparseable and a form
with no slots both fail naming block pr_url_block_0 and leave the store
unchanged. -/
theorem submission_validation_atomic_witness :
    handleTrackPRSubmission stFix ghFix formBad =
      (SubmissionResult.validationError (prURLBlockID 0), stFix, []) ∧
    handleTrackPRSubmission stFix ghFix formEmpty =
      (SubmissionResult.validationError "pr_url_block_0", stFix, []) := by
  constructor
  · exact (submission_validation_atomic stFix ghFix formBad).1 0 (by decide)
  · exact (submission_validation_atomic stFix ghFix formEmpty).2 rfl

/-- Reading a fully present slot list yields its values followed by the
read of the remainder. -/
theorem readSlots_map_some_append (l : List String) (rest : List (Option String)) :
    readSlots (l.map some ++ rest) = l ++ readSlots rest := by
  induction l with
  | nil => rfl
  | cons x xs ih => simp [readSlots, ih]

/-- The rebuilt layout with one extra slot exposes the carried values
followed by one empty slot. -/
theorem rebuiltSlots_succ (urls : List String) :
    rebuiltSlots (urls.length + 1) urls = urls.map some ++ [some ""] := by
  unfold rebuiltSlots
  rw [List.range_succ, List.map_append]
  congr 1
  · induction urls with
    | nil => rfl
    | cons x xs ih =>
      rw [List.length_cons, List.range_succ_eq_map]
      simp only [List.map_cons, List.map_map, List.getD_cons_zero, List.cons.injEq, true_and]
      rw [← ih]
      apply List.map_congr_left
      intro i _
      simp only [Function.comp_apply, List.getD_cons_succ]
  · simp [List.getD_eq_default]

/-- C8: the layout transition never drops below one slot (remove maps n
to max 1 (n-1)), add appends one slot keeping every value, and add then
remove on the rebuilt layout returns to the original slot count with the
original values intact (only the freshly added empty slot is
discarded). -/
theorem formLayout_min_one_roundtrip :
    ∀ values : List (Option String),
      1 ≤ (readSlots values).length →
      (∀ a, 1 ≤ (handleAddRemovePR values a).1) ∧
      (handleAddRemovePR values FormAction.remove).1 =
        max 1 ((readSlots values).length - 1) ∧
      handleAddRemovePR values FormAction.add =
        ((readSlots values).length + 1, readSlots values) ∧
      readSlots (rebuiltSlots ((readSlots values).length + 1) (readSlots values)) =
        readSlots values ++ [""] ∧
      handleAddRemovePR
        (rebuiltSlots ((readSlots values).length + 1) (readSlots values))
        FormAction.remove = ((readSlots values).length, readSlots values) := by
  intro values h1
  have hreb : readSlots (rebuiltSlots ((readSlots values).length + 1) (readSlots values)) =
      readSlots values ++ [""] := by
    rw [rebuiltSlots_succ, readSlots_map_some_append]
    rfl
  refine ⟨?_, ?_, rfl, hreb, ?_⟩
  · intro a
    cases a with
    | add => simp [handleAddRemovePR]
    | remove =>
      simp only [handleAddRemovePR]
      by_cases h2 : (readSlots values).length > 1
      · rw [if_pos h2]; omega
      · rw [if_neg h2]; omega
  · simp only [handleAddRemovePR]
    by_cases h2 : (readSlots values).length > 1
    · rw [if_pos h2]; omega
    · rw [if_neg h2]; omega
  · simp only [handleAddRemovePR, hreb]
    have hlen : (readSlots values ++ [""]).length = (readSlots values).length + 1 := by
      simp
    rw [hlen, if_pos (by omega : (readSlots values).length + 1 > 1)]
    simp only [Nat.add_sub_cancel, Prod.mk.injEq, true_and]
    exact List.take_left _ _

/-- Witness for C8 on a concrete two-slot layout. -/
theorem formLayout_min_one_roundtrip_witness :
    handleAddRemovePR
      (rebuiltSlots ((readSlots [some "a", some "b"]).length + 1)
        (readSlots [some "a", some "b"]))
      FormAction.remove =
      ((readSlots [some "a", some "b"]).length, readSlots [some "a", some "b"]) ∧
    1 ≤ (handleAddRemovePR [some "a", some "b"] FormAction.remove).1 := by
  have h := formLayout_min_one_roundtrip [some "a", some "b"] (by decide)
  exact ⟨h.2.2.2.2, h.1 FormAction.remove⟩

/-- Counterexample to C9: on a fixed persisted state with two reviewers,
two legitimate enumeration orders of the reviewer set (the Go map range
order is unspecified) produce different message texts. -/
theorem render_two_orders_differ_counterexample :
    getTrackerByID stFix 1 = some trackerFix ∧
    validReviewerEnum stFix 1 ["U1", "U2"] ∧
    validReviewerEnum stFix 1 ["U2", "U1"] ∧
    renderTrackerText trackerFix (getPullRequestsByTracker stFix 1) ["U1", "U2"] ≠
      renderTrackerText trackerFix (getPullRequestsByTracker stFix 1) ["U2", "U1"] := by
  refine ⟨by decide, ?_, ?_, by decide⟩
  · show (["U1", "U2"] : List String).Perm ((trackerReviewerPool stFix 1).dedup)
    decide
  · show (["U2", "U1"] : List String).Perm ((trackerReviewerPool stFix 1).dedup)
    decide

/-- C9 amended: the renderer is deterministic in the persisted state up
to the enumeration order of the reviewer set. Any two legitimate
enumerations are permutations of each other; the enumeration order
influences only the final reviewers line, every other line being a
function of the persisted rows alone; permuted enumerations yield
permuted mention lists; and invocations that enumerate the set in the
same order produce identical text. -/
theorem render_deterministic_amended :
    ∀ (st : DBState) (trackerID : Int) (t : Tracker) (prs : List PullRequest)
      (o₁ o₂ : List String),
      (validReviewerEnum st trackerID o₁ → validReviewerEnum st trackerID o₂ →
        o₁.Perm o₂) ∧
      renderLines t prs o₁ = fixedLines t prs ++ [reviewerLine o₁] ∧
      (o₁.Perm o₂ → (o₁.map mention).Perm (o₂.map mention)) ∧
      (o₁ = o₂ → renderTrackerText t prs o₁ = renderTrackerText t prs o₂) := by
  intro st trackerID t prs o₁ o₂
  refine ⟨fun h1 h2 => h1.trans h2.symm, ?_, fun h => h.map mention, fun h => by rw [h]⟩
  simp [renderLines, fixedLines]

/-- Witness for the amended C9 at a concrete state and two concrete
enumeration orders. -/
theorem render_deterministic_amended_witness :
    (["U1", "U2"] : List String).Perm ["U2", "U1"] ∧
    ((["U1", "U2"] : List String).map mention).Perm (["U2", "U1"].map mention) := by
  have h := render_deterministic_amended stFix 1 trackerFix [prFix] ["U1", "U2"] ["U2", "U1"]
  exact ⟨h.1 (by decide) (by decide), h.2.2.1 (by decide)⟩

theorem parsePRURL_accept_characterization :
    (∀ raw : String, (parsePRURL raw).isSome ↔ prURLAccepted raw) ∧
    parsePRURL "ftp://github.com/o/r/pull/5" =
      some { owner := "o", repo := "r", number := 5, url := "ftp://github.com/o/r/pull/5" } ∧
    parsePRURL "https://gitlab.com/o/r/pull/5" = none ∧
    parsePRURL "https://github.com/o/r/pull/-7" =
      some { owner := "o", repo := "r", number := -7, url := "https://github.com/o/r/pull/-7" } ∧
    parsePRURL " https://github.com/o/r/pull/5 " =
      some { owner := "o", repo := "r", number := 5, url := "https://github.com/o/r/pull/5" } := by
  refine ⟨?_, by decide, by decide, by decide, by decide⟩
  intro raw
  constructor
  · intro H
    rw [parsePRURL] at H
    split at H
    · simp at H
    · rename_i u h1
      split at H
      · simp at H
      · rename_i h2
        split at H
        · rename_i a b p num h3
          split at H
          · simp at H
          · rename_i hp
            split at H
            · simp at H
            · rename_i n h4
              exact ⟨u, a, b, num, n, h1, by simpa using h2, by rw [h3]; simp at hp; rw [hp], h4⟩
        · simp at H
  · rintro ⟨u, a, b, num, n, h1, h2, h3, h4⟩
    rw [parsePRURL]
    simp only [h1, h2, h3, h4]
    simp

end Revue
